import Mathlib

/-! NetworkMonitor: the two greeter entry points.

A shallow embedding of `src/main.c` and `src/main.cpp`.  Both programs are a
straight line of output statements whose text is chosen by preprocessor
conditionals on the predefined symbols `__arm64__` and `__x86_64__`.  The
embedding therefore has three layers:

* the preprocessor: conditional sections (`#ifdef` / `#elif defined` / `#else`)
  evaluated against a build configuration;
* the statements that survive preprocessing (`printf`, `std::cout << ...`,
  `return`), executed over an explicit process state;
* the two `main` functions assembled from the source text, line by line.
-/

namespace NetworkMonitor

/-! ## Build configuration and the preprocessor -/

/-- The predefined compiler symbols tested by the sources. -/
inductive Symbol where
  | __arm64__
  | __x86_64__
deriving DecidableEq, Repr

/-- A build configuration: which of the two symbols the compiler predefines. -/
structure BuildConfig where
  arm64 : Bool
  x86_64 : Bool
deriving DecidableEq, Repr

/-- Whether a symbol is defined in a build. -/
def BuildConfig.defined (cfg : BuildConfig) : Symbol → Bool
  | .__arm64__ => cfg.arm64
  | .__x86_64__ => cfg.x86_64

/-- The directive that opens a group of a conditional section. -/
inductive Directive where
  | ifdef (s : Symbol)        -- `#ifdef s`
  | elifDefined (s : Symbol)  -- `#elif defined(s)`
  | otherwise                 -- `#else`
deriving DecidableEq, Repr

/-- The controlling condition of a directive in a build. -/
def Directive.holds (cfg : BuildConfig) : Directive → Bool
  | .ifdef s => cfg.defined s
  | .elifDefined s => cfg.defined s
  | .otherwise => true

/-- A conditional section up to its `#endif`: the groups in source order, each
with the directive that opens it. -/
abbrev IfSection (α : Type) := List (Directive × List α)

/-- Group `i` of a section is processed when its own condition holds and the
condition of no earlier group of the section holds. -/
def kept {α : Type} (cfg : BuildConfig) (sec : IfSection α) (i : Nat) : Bool :=
  match sec.get? i with
  | none => false
  | some g => g.1.holds cfg && (sec.take i).all (fun h => !h.1.holds cfg)

/-- The positions of the groups of a section that are processed. -/
def keptGroups {α : Type} (cfg : BuildConfig) (sec : IfSection α) : List Nat :=
  (List.range sec.length).filter (kept cfg sec)

/-- The text of group `i` of a section. -/
def groupText {α : Type} (sec : IfSection α) (i : Nat) : List α :=
  match sec.get? i with
  | none => []
  | some g => g.2

/-- What a section leaves behind after preprocessing: the text of its
processed groups, in source order. -/
def expand {α : Type} (cfg : BuildConfig) (sec : IfSection α) : List α :=
  (keptGroups cfg sec).flatMap (groupText sec)

/-! ## Statements and their execution -/

/-- An operand inserted into `std::cout`. -/
inductive Item where
  | str (s : String)  -- a string literal
  | endl              -- `std::endl`
deriving DecidableEq, Repr

/-- The statements that occur in the two `main` functions. -/
inductive Stmt where
  | printf (format : String)  -- `printf(format);`
  | cout (items : List Item)  -- `std::cout << i₁ << ... << iₙ;`
  | ret (code : Int)          -- `return code;`
deriving DecidableEq, Repr

/-- The part of the process a program could observe or change. -/
structure Process where
  argv : List String
  stdin : String
  stdout : String
deriving DecidableEq, Repr

/-- Append text to standard output. -/
def Process.write (p : Process) (s : String) : Process :=
  { p with stdout := p.stdout ++ s }

/-- The characters an operand puts on the stream; `std::endl` is a newline
followed by a flush, which adds no characters. -/
def Item.text : Item → String
  | .str s => s
  | .endl => "\n"

/-- The text printed by `printf(format)` with no further arguments: the format
itself when it has no conversion specification, undefined otherwise. -/
def printfText (format : String) : Option String :=
  if format.toList.elem '%' then none else some format

/-- Run the statements of `main` in order.  `return` ends the run with its
value; falling off the end of `main` returns 0. -/
def exec : List Stmt → Process → Option (Process × Int)
  | [], p => some (p, 0)
  | .printf format :: rest, p =>
    match printfText format with
    | none => none
    | some s => exec rest (p.write s)
  | .cout items :: rest, p => exec rest (items.foldl (fun q it => q.write it.text) p)
  | .ret code :: _, p => some (p, code)

/-! ## `src/main.c` -/

/-- Lines 4 to 12 of `main.c`: the three-way conditional section. -/
def main_c_section : IfSection Stmt :=
  [ (.ifdef .__arm64__,
      [ .printf "Hello from macOS on ARM64 (Apple Silicon)!\n",
        .printf "Running optimized code for Apple Silicon\n" ]),
    (.elifDefined .__x86_64__,
      [ .printf "Hello from macOS on x86_64 (Intel)!\n",
        .printf "Running on Intel architecture\n" ]),
    (.otherwise,
      [ .printf "Hello from macOS on unknown architecture!\n" ]) ]

/-- The body of `main` in `main.c` after preprocessing. -/
def main_c_body (cfg : BuildConfig) : List Stmt :=
  expand cfg main_c_section ++ [.ret 0]

/-- The function `main` of `main.c`. -/
def main_c (cfg : BuildConfig) (p : Process) : Option (Process × Int) :=
  exec (main_c_body cfg) p

/-! ## `src/main.cpp` -/

/-- An object-like definition `#define name replacement` with a string literal
as replacement. -/
structure Define where
  name : String
  replacement : String
deriving DecidableEq, Repr

/-- Lines 4 to 10 of `main.cpp`: the section that defines `ARCHITECTURE`. -/
def ARCHITECTURE_section : IfSection Define :=
  [ (.ifdef .__arm64__, [ ⟨"ARCHITECTURE", "ARM64 (Apple Silicon)"⟩ ]),
    (.elifDefined .__x86_64__, [ ⟨"ARCHITECTURE", "x86_64 (Intel)"⟩ ]),
    (.otherwise, [ ⟨"ARCHITECTURE", "Unknown"⟩ ]) ]

/-- The replacement of a name among the definitions in force, if any. -/
def lookup (defs : List Define) (name : String) : Option String :=
  (defs.find? (fun d => d.name == name)).map (fun d => d.replacement)

/-- The string literal `ARCHITECTURE` stands for in a build. -/
def ARCHITECTURE (cfg : BuildConfig) : Option String :=
  lookup (expand cfg ARCHITECTURE_section) "ARCHITECTURE"

/-- Lines 16 to 20 of `main.cpp`: the two-way section on `__arm64__`. -/
def main_cpp_section : IfSection Stmt :=
  [ (.ifdef .__arm64__,
      [ .cout [.str "Running optimized code for Apple Silicon", .endl] ]),
    (.otherwise,
      [ .cout [.str "Running on Intel architecture", .endl] ]) ]

/-- The body of `main` in `main.cpp` after preprocessing; it exists when
`ARCHITECTURE` is defined. -/
def main_cpp_body (cfg : BuildConfig) : Option (List Stmt) :=
  match ARCHITECTURE cfg with
  | none => none
  | some arch =>
    some ([ .cout [.str "Hello from macOS on ", .str arch, .str "!", .endl] ]
      ++ expand cfg main_cpp_section
      ++ [.ret 0])

/-- The function `main` of `main.cpp`. -/
def main_cpp (cfg : BuildConfig) (p : Process) : Option (Process × Int) :=
  match main_cpp_body cfg with
  | none => none
  | some body => exec body p

/-! ## Runs -/

/-- What a run of a program shows to its caller. -/
structure Outcome where
  output : String
  exitCode : Int
deriving DecidableEq, Repr

/-- A run of an entry point: the process starts with the given arguments and
standard input and with nothing yet written to standard output. -/
def run (entry : Process → Option (Process × Int)) (argv : List String) (stdin : String) :
    Option Outcome :=
  (entry { argv := argv, stdin := stdin, stdout := "" }).map
    (fun r => { output := r.1.stdout, exitCode := r.2 })

/-- A run of `main.c`. -/
def run_c (cfg : BuildConfig) (argv : List String) (stdin : String) : Option Outcome :=
  run (main_c cfg) argv stdin

/-- A run of `main.cpp`. -/
def run_cpp (cfg : BuildConfig) (argv : List String) (stdin : String) : Option Outcome :=
  run (main_cpp cfg) argv stdin

/-! ## Architecture classes -/

/-- The three architecture classes a build resolves to. -/
inductive ArchitectureClass where
  | ARM64
  | X86_64
  | Unknown
deriving DecidableEq, Repr

/-- The position, in the three-way sections of `main.c` (lines 4 to 12) and of
`main.cpp` (lines 4 to 10), of the group written for a class. -/
def ArchitectureClass.group : ArchitectureClass → Nat
  | .ARM64 => 0
  | .X86_64 => 1
  | .Unknown => 2

/-! ## Theorems -/

/-- C2: in a build with neither `__arm64__` nor `__x86_64__` defined, `main.c`
writes exactly the one line "Hello from macOS on unknown architecture!" with
its newline and nothing else, and returns 0, whatever the arguments and
standard input. -/
theorem main_c_unknown (cfg : BuildConfig) (argv : List String) (stdin : String)
    (harm : cfg.arm64 = false) (hx86 : cfg.x86_64 = false) :
    run_c cfg argv stdin = some ⟨"Hello from macOS on unknown architecture!\n", 0⟩ := by
  obtain ⟨a, b⟩ := cfg
  subst harm hx86
  rfl

/-- The theorem `main_c_unknown` at the build with neither symbol, run with
an extra argument and some standard input. -/
theorem main_c_unknown_witness :
    run_c ⟨false, false⟩ ["greeter", "extra"] "ignored" =
      some ⟨"Hello from macOS on unknown architecture!\n", 0⟩ :=
  main_c_unknown ⟨false, false⟩ ["greeter", "extra"] "ignored" rfl rfl

/-- C4: in a build with `__arm64__` defined, `main.c` and `main.cpp` both
write exactly the two ARM64 lines and return 0. -/
theorem main_arm64 (cfg : BuildConfig) (argv : List String) (stdin : String)
    (harm : cfg.arm64 = true) :
    run_c cfg argv stdin =
        some ⟨"Hello from macOS on ARM64 (Apple Silicon)!\nRunning optimized code for Apple Silicon\n", 0⟩
      ∧ run_cpp cfg argv stdin =
        some ⟨"Hello from macOS on ARM64 (Apple Silicon)!\nRunning optimized code for Apple Silicon\n", 0⟩ := by
  obtain ⟨a, b⟩ := cfg
  subst harm
  cases b <;> exact ⟨rfl, rfl⟩

/-- The theorem `main_arm64` at the build with only `__arm64__` defined. -/
theorem main_arm64_witness :
    run_c ⟨true, false⟩ [] "" =
        some ⟨"Hello from macOS on ARM64 (Apple Silicon)!\nRunning optimized code for Apple Silicon\n", 0⟩
      ∧ run_cpp ⟨true, false⟩ [] "" =
        some ⟨"Hello from macOS on ARM64 (Apple Silicon)!\nRunning optimized code for Apple Silicon\n", 0⟩ :=
  main_arm64 ⟨true, false⟩ [] "" rfl

/-- C5: in a build with `__x86_64__` defined and `__arm64__` not defined,
`main.c` and `main.cpp` both write exactly the two x86_64 lines and return 0. -/
theorem main_x86_64 (cfg : BuildConfig) (argv : List String) (stdin : String)
    (harm : cfg.arm64 = false) (hx86 : cfg.x86_64 = true) :
    run_c cfg argv stdin =
        some ⟨"Hello from macOS on x86_64 (Intel)!\nRunning on Intel architecture\n", 0⟩
      ∧ run_cpp cfg argv stdin =
        some ⟨"Hello from macOS on x86_64 (Intel)!\nRunning on Intel architecture\n", 0⟩ := by
  obtain ⟨a, b⟩ := cfg
  subst harm hx86
  exact ⟨rfl, rfl⟩

/-- The theorem `main_x86_64` at the build with only `__x86_64__` defined. -/
theorem main_x86_64_witness :
    run_c ⟨false, true⟩ [] "" =
        some ⟨"Hello from macOS on x86_64 (Intel)!\nRunning on Intel architecture\n", 0⟩
      ∧ run_cpp ⟨false, true⟩ [] "" =
        some ⟨"Hello from macOS on x86_64 (Intel)!\nRunning on Intel architecture\n", 0⟩ :=
  main_x86_64 ⟨false, true⟩ [] "" rfl rfl

/-- C9: when both `__arm64__` and `__x86_64__` are defined, both programs
write exactly the ARM64 output; the x86_64 group of each three-way section and
the `#else` group of the two-way section of `main.cpp` are skipped, so no
x86_64 text is emitted. -/
theorem arm64_takes_precedence (argv : List String) (stdin : String) :
    run_c ⟨true, true⟩ argv stdin =
        some ⟨"Hello from macOS on ARM64 (Apple Silicon)!\nRunning optimized code for Apple Silicon\n", 0⟩
      ∧ run_cpp ⟨true, true⟩ argv stdin =
        some ⟨"Hello from macOS on ARM64 (Apple Silicon)!\nRunning optimized code for Apple Silicon\n", 0⟩
      ∧ kept ⟨true, true⟩ main_c_section ArchitectureClass.X86_64.group = false
      ∧ kept ⟨true, true⟩ ARCHITECTURE_section ArchitectureClass.X86_64.group = false
      ∧ kept ⟨true, true⟩ main_cpp_section 1 = false :=
  ⟨rfl, rfl, rfl, rfl, rfl⟩

/-- C7: in every build, each program terminates normally with an output that
is not empty, whose last character is a newline, and that is a concatenation
of lines each ended by a newline. -/
theorem output_newline_terminated (cfg : BuildConfig) (argv : List String) (stdin : String) :
    ∃ oc ocpp : Outcome,
      run_c cfg argv stdin = some oc ∧ run_cpp cfg argv stdin = some ocpp
        ∧ (oc.output.toList ≠ [] ∧ oc.output.toList.getLast? = some '\n'
            ∧ ∃ lines : List String, (∀ l ∈ lines, '\n' ∉ l.toList)
                ∧ oc.output = String.join (lines.map (fun l => l ++ "\n")))
        ∧ (ocpp.output.toList ≠ [] ∧ ocpp.output.toList.getLast? = some '\n'
            ∧ ∃ lines : List String, (∀ l ∈ lines, '\n' ∉ l.toList)
                ∧ ocpp.output = String.join (lines.map (fun l => l ++ "\n"))) := by
  obtain ⟨a, b⟩ := cfg
  cases a <;> cases b
  · refine ⟨⟨"Hello from macOS on unknown architecture!\n", 0⟩,
      ⟨"Hello from macOS on Unknown!\nRunning on Intel architecture\n", 0⟩, rfl, rfl, ?_, ?_⟩
    · exact ⟨by decide, by decide,
        ["Hello from macOS on unknown architecture!"],
        by decide, rfl⟩
    · exact ⟨by decide, by decide,
        ["Hello from macOS on Unknown!", "Running on Intel architecture"],
        by decide, rfl⟩
  · refine ⟨⟨"Hello from macOS on x86_64 (Intel)!\nRunning on Intel architecture\n", 0⟩,
      ⟨"Hello from macOS on x86_64 (Intel)!\nRunning on Intel architecture\n", 0⟩, rfl, rfl, ?_, ?_⟩
    · exact ⟨by decide, by decide,
        ["Hello from macOS on x86_64 (Intel)!", "Running on Intel architecture"],
        by decide, rfl⟩
    · exact ⟨by decide, by decide,
        ["Hello from macOS on x86_64 (Intel)!", "Running on Intel architecture"],
        by decide, rfl⟩
  · refine ⟨⟨"Hello from macOS on ARM64 (Apple Silicon)!\nRunning optimized code for Apple Silicon\n", 0⟩,
      ⟨"Hello from macOS on ARM64 (Apple Silicon)!\nRunning optimized code for Apple Silicon\n", 0⟩, rfl, rfl, ?_, ?_⟩
    · exact ⟨by decide, by decide,
        ["Hello from macOS on ARM64 (Apple Silicon)!", "Running optimized code for Apple Silicon"],
        by decide, rfl⟩
    · exact ⟨by decide, by decide,
        ["Hello from macOS on ARM64 (Apple Silicon)!", "Running optimized code for Apple Silicon"],
        by decide, rfl⟩
  · refine ⟨⟨"Hello from macOS on ARM64 (Apple Silicon)!\nRunning optimized code for Apple Silicon\n", 0⟩,
      ⟨"Hello from macOS on ARM64 (Apple Silicon)!\nRunning optimized code for Apple Silicon\n", 0⟩, rfl, rfl, ?_, ?_⟩
    · exact ⟨by decide, by decide,
        ["Hello from macOS on ARM64 (Apple Silicon)!", "Running optimized code for Apple Silicon"],
        by decide, rfl⟩
    · exact ⟨by decide, by decide,
        ["Hello from macOS on ARM64 (Apple Silicon)!", "Running optimized code for Apple Silicon"],
        by decide, rfl⟩

/-- C8: the outcome of a run (output and exit code) of either program is the
same for any two builds of the same architecture class, in particular for two
runs of one build, whatever arguments and standard input each run is given;
and neither program consumes or changes its arguments or standard input. -/
theorem behaviour_depends_only_on_class (cfg₁ cfg₂ : BuildConfig)
    (argv₁ argv₂ : List String) (stdin₁ stdin₂ : String)
    (hclass : keptGroups cfg₁ main_c_section = keptGroups cfg₂ main_c_section) :
    run_c cfg₁ argv₁ stdin₁ = run_c cfg₂ argv₂ stdin₂
      ∧ run_cpp cfg₁ argv₁ stdin₁ = run_cpp cfg₂ argv₂ stdin₂
      ∧ (∀ p : Process,
          (main_c cfg₁ p).map (fun r => (r.1.argv, r.1.stdin)) = some (p.argv, p.stdin)
            ∧ (main_cpp cfg₁ p).map (fun r => (r.1.argv, r.1.stdin)) = some (p.argv, p.stdin)) := by
  obtain ⟨a₁, b₁⟩ := cfg₁
  obtain ⟨a₂, b₂⟩ := cfg₂
  cases a₁ <;> cases b₁ <;> cases a₂ <;> cases b₂ <;>
    first
    | exact ⟨rfl, rfl, fun _ => ⟨rfl, rfl⟩⟩
    | exact absurd hclass (by decide)

/-- The theorem `behaviour_depends_only_on_class` at two ARM64 builds, one of
which also defines `__x86_64__`, run with different arguments and input. -/
theorem behaviour_depends_only_on_class_witness :
    run_c ⟨true, true⟩ ["greeter"] "" = run_c ⟨true, false⟩ ["greeter", "--verbose"] "typed\n"
      ∧ run_cpp ⟨true, true⟩ ["greeter"] "" =
          run_cpp ⟨true, false⟩ ["greeter", "--verbose"] "typed\n" :=
  have h := behaviour_depends_only_on_class ⟨true, true⟩ ⟨true, false⟩
    ["greeter"] ["greeter", "--verbose"] "" "typed\n" (by decide)
  ⟨h.1, h.2.1⟩

/-- C10: in every build `main.cpp` processes exactly one group of its two-way
section, chosen by `__arm64__` alone, and writes exactly two lines, the second
being "Running optimized code for Apple Silicon" when `__arm64__` is defined
and "Running on Intel architecture" otherwise; whenever at least one of
`__arm64__`, `__x86_64__` is defined its outcome equals that of `main.c`. -/
theorem main_cpp_second_line (cfg : BuildConfig) (argv : List String) (stdin : String) :
    keptGroups cfg main_cpp_section = [if cfg.arm64 then 0 else 1]
      ∧ (∃ first : String, '\n' ∉ first.toList
          ∧ run_cpp cfg argv stdin =
              some ⟨first ++ "\n"
                ++ (if cfg.arm64 then "Running optimized code for Apple Silicon"
                    else "Running on Intel architecture")
                ++ "\n", 0⟩)
      ∧ (cfg.arm64 = true ∨ cfg.x86_64 = true → run_cpp cfg argv stdin = run_c cfg argv stdin) := by
  obtain ⟨a, b⟩ := cfg
  cases a <;> cases b
  · exact ⟨rfl, ⟨"Hello from macOS on Unknown!", by decide, rfl⟩, fun h => absurd h (by decide)⟩
  · exact ⟨rfl, ⟨"Hello from macOS on x86_64 (Intel)!", by decide, rfl⟩, fun _ => rfl⟩
  · exact ⟨rfl, ⟨"Hello from macOS on ARM64 (Apple Silicon)!", by decide, rfl⟩, fun _ => rfl⟩
  · exact ⟨rfl, ⟨"Hello from macOS on ARM64 (Apple Silicon)!", by decide, rfl⟩, fun _ => rfl⟩

/-- The theorem `main_cpp_second_line` at the build with only `__x86_64__`
defined: the hypothesis of its last part holds there and the outcomes agree. -/
theorem main_cpp_second_line_witness :
    ((false = true ∨ true = true) ∧ run_cpp ⟨false, true⟩ [] "" = run_c ⟨false, true⟩ [] "")
      ∧ keptGroups ⟨false, true⟩ main_cpp_section = [1] :=
  have h := main_cpp_second_line ⟨false, true⟩ [] ""
  ⟨⟨Or.inr rfl, h.2.2 (Or.inr rfl)⟩, h.1⟩

/-- C1 as stated fails: in the build with neither symbol defined `main.cpp`
writes "Hello from macOS on Unknown!" and then "Running on Intel architecture",
not the single line "Hello from macOS on unknown architecture!". -/
theorem main_cpp_unknown_counterexample :
    run_cpp ⟨false, false⟩ [] "" =
        some ⟨"Hello from macOS on Unknown!\nRunning on Intel architecture\n", 0⟩
      ∧ run_cpp ⟨false, false⟩ [] "" ≠
        some ⟨"Hello from macOS on unknown architecture!\n", 0⟩ :=
  ⟨rfl, by decide⟩

/-- C1, amended: in a build with neither `__arm64__` nor `__x86_64__` defined,
`main.cpp` terminates with exit code 0 and its output begins with the line
"Hello from macOS on Unknown!" and its newline. -/
theorem main_cpp_unknown_first_line (cfg : BuildConfig) (argv : List String) (stdin : String)
    (harm : cfg.arm64 = false) (hx86 : cfg.x86_64 = false) :
    ∃ rest : String,
      run_cpp cfg argv stdin = some ⟨"Hello from macOS on Unknown!\n" ++ rest, 0⟩ := by
  obtain ⟨a, b⟩ := cfg
  subst harm hx86
  exact ⟨"Running on Intel architecture\n", rfl⟩

/-- The theorem `main_cpp_unknown_first_line` at the build with neither symbol. -/
theorem main_cpp_unknown_first_line_witness :
    ∃ rest : String,
      run_cpp ⟨false, false⟩ ["greeter"] "" =
        some ⟨"Hello from macOS on Unknown!\n" ++ rest, 0⟩ :=
  main_cpp_unknown_first_line ⟨false, false⟩ ["greeter"] "" rfl rfl

/-- C3 as stated fails: in the build with neither symbol defined the two
programs write different output. -/
theorem entry_points_differ_counterexample :
    run_c ⟨false, false⟩ [] "" = some ⟨"Hello from macOS on unknown architecture!\n", 0⟩
      ∧ run_cpp ⟨false, false⟩ [] "" =
        some ⟨"Hello from macOS on Unknown!\nRunning on Intel architecture\n", 0⟩
      ∧ (run_c ⟨false, false⟩ [] "").map Outcome.output
          ≠ (run_cpp ⟨false, false⟩ [] "").map Outcome.output :=
  ⟨rfl, rfl, by decide⟩

/-- C3, amended: in every build both programs terminate with the same exit
code, which is 0, and in every build with at least one of `__arm64__`,
`__x86_64__` defined they also write the same output. -/
theorem entry_points_agree (cfg : BuildConfig) (argv : List String) (stdin : String) :
    ∃ oc ocpp : Outcome,
      run_c cfg argv stdin = some oc ∧ run_cpp cfg argv stdin = some ocpp
        ∧ oc.exitCode = 0 ∧ ocpp.exitCode = 0
        ∧ oc.exitCode = ocpp.exitCode
        ∧ (cfg.arm64 = true ∨ cfg.x86_64 = true → oc.output = ocpp.output) := by
  obtain ⟨a, b⟩ := cfg
  cases a <;> cases b
  · exact ⟨_, _, rfl, rfl, rfl, rfl, rfl, fun h => absurd h (by decide)⟩
  · exact ⟨_, _, rfl, rfl, rfl, rfl, rfl, fun _ => rfl⟩
  · exact ⟨_, _, rfl, rfl, rfl, rfl, rfl, fun _ => rfl⟩
  · exact ⟨_, _, rfl, rfl, rfl, rfl, rfl, fun _ => rfl⟩

/-- The theorem `entry_points_agree` at the build with both symbols defined:
the hypothesis of its last part holds there, the outcomes coincide, and the
exit code of each program is 0. -/
theorem entry_points_agree_witness :
    (true = true ∨ true = true)
      ∧ run_c ⟨true, true⟩ [] "" = run_cpp ⟨true, true⟩ [] ""
      ∧ (run_c ⟨true, true⟩ [] "").map Outcome.exitCode = some 0
      ∧ (run_cpp ⟨true, true⟩ [] "").map Outcome.exitCode = some 0 := by
  obtain ⟨oc, ocpp, hc, hcpp, hzero, hzero', hcode, hout⟩ :=
    entry_points_agree ⟨true, true⟩ [] ""
  refine ⟨Or.inl rfl, ?_, ?_, ?_⟩
  · rw [hc, hcpp]
    cases oc
    cases ocpp
    simp only [Outcome.mk.injEq, Option.some.injEq]
    exact ⟨hout (Or.inl rfl), hcode⟩
  · rw [hc, Option.map_some', hzero]
  · rw [hcpp, Option.map_some', hzero']

end NetworkMonitor
